import Mathlib

/-!
Verification of the chat request handler in
`src/packages/api/src/functions/chat-post.ts`.

The handler is embedded as a pure function from an explicit `World`
(environment configuration, parsed request body, and the results of every
external collaborator call) to a trace of observable events plus an HTTP
outcome.  Collaborator calls that may throw are modelled as `Except String`
values carried by the `World`; the single top-level `try/catch` of the
source becomes the `match` in `postChat`.
-/

namespace ChatPost

/-- A chat message as it arrives in the parsed JSON body.  Both fields are
optional because the JSON may omit them; the source only ever reads
`content` (via `messages.at(-1)?.content`) and never reads `role`. -/
structure ChatMessage where
  role : Option String
  content : Option String
  deriving DecidableEq

/-- The parsed request body (`AIChatCompletionRequest`): the `messages`
field may be absent in the JSON object. -/
structure AIChatCompletionRequest where
  messages : Option (List ChatMessage)
  deriving DecidableEq

/-- A document returned by the vector store's similarity search.  The field
names follow the template variables of the source's document prompt,
`[\x7bsource\x7d]: \x7bpage_content\x7d`. -/
structure RetrievedDocument where
  source : String
  page_content : String
  deriving DecidableEq

/-- Modelled from the spec: the local model identifiers and the local index
storage path live in `packages/api/src/constants.js`, which is not part of
the provided sources.  The spec only says they are fixed configuration
values, so they are symbolic constants here; no claim depends on their
exact text. -/
def ollamaChatModel : String := "ollama-chat-model"

/-- Modelled from the spec: see `ollamaChatModel`. -/
def ollamaEmbeddingsModel : String := "ollama-embeddings-model"

/-- Modelled from the spec: see `ollamaChatModel`; the fixed on-disk
location of the persisted local vector index. -/
def faissStoreFolder : String := "faiss-store-folder"

/-- The temperature passed to both chat-model constructors in the source. -/
def chatTemperature : ℚ := 0.7

/-- Observable events of one handler invocation: diagnostics and every call
to an external collaborator (constructors, index load, retrieval,
generation). -/
inductive Event where
  | logInfo (msg : String)
  | logError (msg : String)
  | getCredentialsEv
  | getTokenProviderEv
  | newAzureOpenAIEmbeddings
  | newAzureChatOpenAI (temperature : ℚ)
  | newAzureCosmosDBNoSQLVectorStore
  | newOllamaEmbeddings (model : String)
  | newChatOllama (temperature : ℚ) (model : String)
  | faissStoreLoad (folder : String)
  | retrieverInvoke (query : String) (k : ℕ)
  | chainStream (input : String) (docs : List RetrievedDocument)
  deriving DecidableEq

/-- The explicit environment of one invocation: process configuration, the
result of parsing the request body (`none` = the body is not parseable
JSON, in which case `request.json()` throws with message `parseErrorMsg`),
and the outcome of every fallible collaborator call. -/
structure World where
  azureOpenAiEndpoint : Option String
  body : Option AIChatCompletionRequest
  parseErrorMsg : String
  credentialsResult : Except String Unit
  tokenProviderResult : Except String Unit
  azureEmbeddingsResult : Except String Unit
  azureChatResult : Except String Unit
  azureStoreResult : Except String Unit
  ollamaEmbeddingsResult : Except String Unit
  ollamaChatResult : Except String Unit
  faissLoadResult : Except String Unit
  searchResult : String → ℕ → Except String (List RetrievedDocument)
  generateResult : String → List RetrievedDocument → Except String (List String)

/-- Modelled from the spec: the HTTP response constructors `badRequest`,
`serviceUnavailable` and `data` live in `packages/api/src/http-response.js`,
which is not part of the provided sources.  The spec describes them as a
`BadRequest` outcome with a plain-text explanation, a `ServiceUnavailable`
outcome with a fixed user-facing message, and a streamed success response
carrying a body and headers. -/
inductive Outcome where
  | badRequest (msg : String)
  | serviceUnavailable (msg : String)
  | data (body : List String) (headers : List (String × String))
  deriving DecidableEq

/-- Whether an outcome is a `BadRequest` response. -/
def Outcome.isBadRequest : Outcome → Bool
  | .badRequest _ => true
  | _ => false

/-- JS truthiness of `process.env.AZURE_OPENAI_API_ENDPOINT`: an unset
variable is `undefined` (falsy) and the empty string is falsy. -/
def envTruthy : Option String → Bool
  | none => false
  | some s => decide (s ≠ "")

/-- The validation test of the source, verbatim:
`!messages || messages.length === 0 || !messages.at(-1)?.content`
(a message whose `content` is absent or the empty string is falsy). -/
def invalidMessages : Option (List ChatMessage) → Bool
  | none => true
  | some ms =>
    ms.isEmpty ||
      (match ms.getLast? with
        | none => true
        | some m =>
          match m.content with
          | none => true
          | some c => decide (c = ""))

/-- `messages.at(-1)!.content` after validation has passed: the content of
the last message (the defaults are unreachable when validation passed). -/
def lastMessageContent (ms : List ChatMessage) : String :=
  match ms.getLast? with
  | some m => m.content.getD ""
  | none => ""

/-- Sequencing helper for the backend-selection branches: record the event
of one collaborator call; if the call threw, the branch stops there,
otherwise the rest of the branch runs. -/
def step (ev : Event) (r : Except String Unit) (rest : List Event × Except String Unit) :
    List Event × Except String Unit :=
  match r with
  | .error e => ([ev], .error e)
  | .ok _ => (ev :: rest.1, rest.2)

/-- The cloud branch of backend selection: `getCredentials()`,
`getAzureOpenAiTokenProvider()`, then the `AzureOpenAIEmbeddings`,
`AzureChatOpenAI` (temperature 0.7) and `AzureCosmosDBNoSQLVectorStore`
constructors, in source order. -/
def azureBranch (w : World) : List Event × Except String Unit :=
  step .getCredentialsEv w.credentialsResult
    (step .getTokenProviderEv w.tokenProviderResult
      (step .newAzureOpenAIEmbeddings w.azureEmbeddingsResult
        (step (.newAzureChatOpenAI chatTemperature) w.azureChatResult
          (step .newAzureCosmosDBNoSQLVectorStore w.azureStoreResult ([], .ok ())))))

/-- The diagnostic logged on the local fallback path. -/
def fallbackLogMsg : String := "No Azure OpenAI endpoint set, using Ollama models and local DB"

/-- The local branch of backend selection: the fallback diagnostic, then
the `OllamaEmbeddings` and `ChatOllama` (temperature 0.7) constructors and
`FaissStore.load`, in source order. -/
def localBranch (w : World) : List Event × Except String Unit :=
  let rest :=
    step (.newOllamaEmbeddings ollamaEmbeddingsModel) w.ollamaEmbeddingsResult
      (step (.newChatOllama chatTemperature ollamaChatModel) w.ollamaChatResult
        (step (.faissStoreLoad faissStoreFolder) w.faissLoadResult ([], .ok ())))
  (.logInfo fallbackLogMsg :: rest.1, rest.2)

/-- Backend selection: `if (azureOpenAiEndpoint)` chooses the cloud branch,
otherwise the local branch. -/
def selectBackend (w : World) : List Event × Except String Unit :=
  if envTruthy w.azureOpenAiEndpoint then azureBranch w else localBranch w

/-- One hexadecimal digit, lowercase, as produced by `JSON.stringify`. -/
def hexDigitChar (n : ℕ) : Char :=
  if n < 10 then Char.ofNat (48 + n) else Char.ofNat (87 + n)

/-- The escaping `JSON.stringify` applies to one character of a string:
quote and backslash are escaped, the control characters with short forms
use them, the remaining control characters use a `\u00XX` escape, and every
other character is emitted verbatim. -/
def escapeJsonChar (c : Char) : String :=
  if c = '"' then "\\\""
  else if c = '\\' then "\\\\"
  else if c = Char.ofNat 8 then "\\b"
  else if c = Char.ofNat 9 then "\\t"
  else if c = Char.ofNat 10 then "\\n"
  else if c = Char.ofNat 12 then "\\f"
  else if c = Char.ofNat 13 then "\\r"
  else if c.toNat < 32 then
    "\\u00" ++ String.singleton (hexDigitChar (c.toNat / 16)) ++
      String.singleton (hexDigitChar (c.toNat % 16))
  else String.singleton c

/-- `JSON.stringify` of a string value. -/
def jsonQuoteString (s : String) : String :=
  "\"" ++ String.join (s.data.map escapeJsonChar) ++ "\""

/-- `JSON.stringify` of the response chunk object
`\x7b delta: \x7b content, role: "assistant" \x7d \x7d` built by
`createJsonStream`; `JSON.stringify` serializes keys in insertion order. -/
def stringifyChunk (content : String) : String :=
  "\x7b\"delta\":\x7b\"content\":" ++ jsonQuoteString content ++
    ",\"role\":\"assistant\"\x7d\x7d"

/-- The stream transcoder `createJsonStream`: falsy (empty) chunks are
skipped, every other chunk yields its serialized delta object followed by a
newline, in production order. -/
def createJsonStream (chunks : List String) : List String :=
  chunks.filterMap fun chunk =>
    if chunk = "" then none else some (stringifyChunk chunk ++ "\n")

/-- The per-document prompt of the source,
`PromptTemplate.fromTemplate` of `[\x7bsource\x7d]: \x7bpage_content\x7d` and
a newline, applied to one retrieved document. -/
def documentPromptRender (d : RetrievedDocument) : String :=
  "[" ++ d.source ++ "]: " ++ d.page_content ++ "\n"

/-- Modelled from the spec: the step that combines the per-document
renderings into one context string lives in langchain's
`createStuffDocumentsChain` (an external dependency, out of scope per the
spec); the spec states the renderings are concatenated in retrieval
order. -/
def renderDocumentContext (docs : List RetrievedDocument) : String :=
  String.join (docs.map documentPromptRender)

/-- The message given to `badRequest` by the source. -/
def invalidMessagesMsg : String := "Invalid or missing messages in the request body"

/-- The fixed user-facing message given to `serviceUnavailable`. -/
def unavailableMsg : String := "Service temporarily unavailable. Please try again later."

/-- The success-response headers of the source. -/
def ndjsonHeaders : List (String × String) :=
  [("Content-Type", "application/x-ndjson"), ("Transfer-Encoding", "chunked")]

/-- The body of the source's `try` block: parse (a parse failure throws),
validate, select a backend, retrieve the top-3 documents for the last
message's content, stream the generation, and transcode it; any thrown
error propagates as `Except.error` together with the events already
emitted. -/
def tryChat (w : World) : List Event × Except String Outcome :=
  match w.body with
  | none => ([], .error w.parseErrorMsg)
  | some requestBody =>
    if invalidMessages requestBody.messages then
      ([], .ok (.badRequest invalidMessagesMsg))
    else
      let sel := selectBackend w
      match sel.2 with
      | .error e => (sel.1, .error e)
      | .ok _ =>
        let question := lastMessageContent (requestBody.messages.getD [])
        match w.searchResult question 3 with
        | .error e => (sel.1 ++ [.retrieverInvoke question 3], .error e)
        | .ok docs =>
          match w.generateResult question docs with
          | .error e =>
            (sel.1 ++ [.retrieverInvoke question 3, .chainStream question docs], .error e)
          | .ok chunks =>
            (sel.1 ++ [.retrieverInvoke question 3, .chainStream question docs],
              .ok (.data (createJsonStream chunks) ndjsonHeaders))

/-- The exported handler `postChat`: the `try` body, with the top-level
`catch` that logs the error's message and answers with the fixed
`serviceUnavailable` response. -/
def postChat (w : World) : List Event × Outcome :=
  match tryChat w with
  | (tr, .ok o) => (tr, o)
  | (tr, .error e) =>
    (tr ++ [.logError ("Error when processing chat-post request: " ++ e)],
      .serviceUnavailable unavailableMsg)

/-- Number of occurrences of an event in a trace. -/
def countEv (tr : List Event) (e : Event) : ℕ :=
  (tr.filter fun x => x = e).length

/-- Whether an event is one of the backend-constructor calls (embedder,
chat model, vector store, index load) of either branch. -/
def Event.isConstructorCall : Event → Bool
  | .newAzureOpenAIEmbeddings => true
  | .newAzureChatOpenAI _ => true
  | .newAzureCosmosDBNoSQLVectorStore => true
  | .newOllamaEmbeddings _ => true
  | .newChatOllama _ _ => true
  | .faissStoreLoad _ => true
  | _ => false

/-- Whether an event belongs to the backend-selection phase (diagnostics,
credential acquisition, constructor calls, index load). -/
def Event.isSelectionEvent : Event → Bool
  | .logInfo _ => true
  | .getCredentialsEv => true
  | .getTokenProviderEv => true
  | .newAzureOpenAIEmbeddings => true
  | .newAzureChatOpenAI _ => true
  | .newAzureCosmosDBNoSQLVectorStore => true
  | .newOllamaEmbeddings _ => true
  | .newChatOllama _ _ => true
  | .faissStoreLoad _ => true
  | _ => false

/-- A convenient fully-successful environment used to instantiate the
theorems at concrete inputs. -/
def baseWorld : World where
  azureOpenAiEndpoint := some "https://example.openai.azure.com"
  body := some ⟨some [⟨some "user", some "hi"⟩]⟩
  parseErrorMsg := "Unexpected token"
  credentialsResult := .ok ()
  tokenProviderResult := .ok ()
  azureEmbeddingsResult := .ok ()
  azureChatResult := .ok ()
  azureStoreResult := .ok ()
  ollamaEmbeddingsResult := .ok ()
  ollamaChatResult := .ok ()
  faissLoadResult := .ok ()
  searchResult := fun _ _ => .ok [⟨"a.txt", "X"⟩]
  generateResult := fun _ _ => .ok ["Hel", "lo", ""]

/-- The fully-successful environment with an unparseable request body. -/
def parseFailWorld : World := { baseWorld with body := none }

lemma foldl_str_append (a : String) (l : List String) :
    l.foldl (fun r s => r ++ s) a = a ++ l.foldl (fun r s => r ++ s) "" := by
  induction l generalizing a with
  | nil => simp [List.foldl, String.append_empty]
  | cons x xs ih =>
    simp only [List.foldl_cons]
    rw [ih (a ++ x), ih ("" ++ x), String.empty_append, String.append_assoc]

lemma join_cons (x : String) (l : List String) :
    String.join (x :: l) = x ++ String.join l := by
  simp only [String.join, List.foldl_cons]
  rw [foldl_str_append, String.empty_append]

lemma mem_step {ev' ev : Event} {r : Except String Unit}
    {rest : List Event × Except String Unit} (h : ev' ∈ (step ev r rest).1) :
    ev' = ev ∨ ev' ∈ rest.1 := by
  unfold step at h
  rcases r with e | u <;> simp at h <;> tauto

lemma selectBackend_selection (w : World) :
    ∀ ev ∈ (selectBackend w).1, ev.isSelectionEvent = true := by
  intro ev hev
  unfold selectBackend at hev
  split at hev
  · unfold azureBranch at hev
    rcases mem_step hev with h | h
    · subst h; rfl
    rcases mem_step h with h | h
    · subst h; rfl
    rcases mem_step h with h | h
    · subst h; rfl
    rcases mem_step h with h | h
    · subst h; rfl
    rcases mem_step h with h | h
    · subst h; rfl
    simp at h
  · unfold localBranch at hev
    simp only [List.mem_cons] at hev
    rcases hev with h | h
    · subst h; rfl
    rcases mem_step h with h | h
    · subst h; rfl
    rcases mem_step h with h | h
    · subst h; rfl
    rcases mem_step h with h | h
    · subst h; rfl
    simp at h

lemma azureBranch_head (w : World) :
    (azureBranch w).1.head? = some .getCredentialsEv := by
  unfold azureBranch step
  rcases w.credentialsResult with e | u <;> simp

lemma localBranch_head (w : World) :
    (localBranch w).1.head? = some (.logInfo fallbackLogMsg) := rfl

lemma selectBackend_ne_nil (w : World) : (selectBackend w).1 ≠ [] := by
  unfold selectBackend
  split
  · unfold azureBranch step
    rcases w.credentialsResult with e | u <;> simp
  · unfold localBranch
    simp

/-- Claim C3: `createJsonStream` emits exactly one line per non-empty
fragment, in production order, each line the JSON serialization of the
delta object followed by a newline; empty fragments produce no line; on
the fragments `Hel`, `lo` and the empty string it produces exactly the two
expected lines. -/
theorem createJsonStream_spec :
    (∀ chunks : List String,
      createJsonStream chunks =
        (chunks.filter fun c => c ≠ "").map fun c => stringifyChunk c ++ "\n") ∧
    createJsonStream ["Hel", "lo", ""] =
      ["\x7b\"delta\":\x7b\"content\":\"Hel\",\"role\":\"assistant\"\x7d\x7d\n",
        "\x7b\"delta\":\x7b\"content\":\"lo\",\"role\":\"assistant\"\x7d\x7d\n"] := by
  constructor
  · intro chunks
    induction chunks with
    | nil => rfl
    | cons c cs ih =>
      by_cases hc : c = "" <;>
        simp [createJsonStream, List.filterMap_cons, List.filter_cons, hc] at ih ⊢ <;>
        exact ih
  · decide

/-- Claim C5: the rendered document-context string is the concatenation,
in retrieval order, of one bracketed source line per document, and on the
two-document example it is exactly the expected string. -/
theorem renderDocumentContext_spec :
    renderDocumentContext [] = "" ∧
    (∀ (d : RetrievedDocument) (ds : List RetrievedDocument),
      renderDocumentContext (d :: ds) =
        "[" ++ d.source ++ "]: " ++ d.page_content ++ "\n" ++ renderDocumentContext ds) ∧
    renderDocumentContext [⟨"a.txt", "X"⟩, ⟨"b.txt", "Y"⟩] = "[a.txt]: X\n[b.txt]: Y\n" := by
  refine ⟨rfl, ?_, by decide⟩
  intro d ds
  simp only [renderDocumentContext, List.map_cons, join_cons, documentPromptRender]

/-- Claim C1 (counterexample): on an unparseable body the handler does not
answer `BadRequest`; it answers the fixed `ServiceUnavailable` response,
because `request.json()` throws inside the top-level `try`. -/
theorem parseFailureNotBadRequest :
    (postChat parseFailWorld).2.isBadRequest = false ∧
    (postChat parseFailWorld).2 = .serviceUnavailable unavailableMsg := by
  constructor <;> rfl

/-- Claim C1 (amended): on an unparseable body the handler returns the
fixed `ServiceUnavailable` response, the parse error is logged, and no
backend constructor, retrieval or generation call is attempted (the trace
holds only the error log). -/
theorem parseFailureServiceUnavailable (w : World) (hb : w.body = none) :
    postChat w =
      ([.logError ("Error when processing chat-post request: " ++ w.parseErrorMsg)],
        .serviceUnavailable unavailableMsg) := by
  simp [postChat, tryChat, hb]

/-- Witness for `parseFailureServiceUnavailable` at a concrete input. -/
theorem parseFailureServiceUnavailable_witness :
    postChat parseFailWorld =
      ([.logError ("Error when processing chat-post request: " ++ parseFailWorld.parseErrorMsg)],
        .serviceUnavailable unavailableMsg) :=
  parseFailureServiceUnavailable parseFailWorld rfl

/-- Claim C2: on a parsed body whose `messages` is absent or empty, or
whose last message's content is absent or empty, the handler returns
`BadRequest` with the fixed explanation and the trace is empty — no
backend constructor, retrieval or generation call happens. -/
theorem validationShortCircuits (w : World) (requestBody : AIChatCompletionRequest)
    (hb : w.body = some requestBody)
    (hinv : requestBody.messages = none ∨ requestBody.messages = some [] ∨
      ∃ ms m, requestBody.messages = some ms ∧ ms.getLast? = some m ∧
        (m.content = none ∨ m.content = some "")) :
    postChat w = ([], .badRequest invalidMessagesMsg) := by
  have hbad : invalidMessages requestBody.messages = true := by
    rcases hinv with h | h | ⟨ms, m, hms, hlast, hc⟩
    · rw [h]; rfl
    · rw [h]; rfl
    · rw [hms]
      rcases hc with hc | hc <;> simp [invalidMessages, hlast, hc]
  simp [postChat, tryChat, hb, hbad]

/-- Witness for `validationShortCircuits` at a concrete input. -/
theorem validationShortCircuits_witness :
    postChat { baseWorld with body := some ⟨some []⟩ } = ([], .badRequest invalidMessagesMsg) :=
  validationShortCircuits { baseWorld with body := some ⟨some []⟩ } ⟨some []⟩ rfl
    (Or.inr (Or.inl rfl))

lemma postChat_not_badRequest (w : World) (requestBody : AIChatCompletionRequest)
    (hb : w.body = some requestBody) (hv : invalidMessages requestBody.messages = false) :
    (postChat w).2.isBadRequest = false := by
  simp only [postChat, tryChat, hb, hv]
  rcases hsel : (selectBackend w).2 with e | u
  · simp [hsel, Outcome.isBadRequest]
  · rcases hs : w.searchResult (lastMessageContent (requestBody.messages.getD [])) 3
      with e | docs
    · simp [hsel, hs, Outcome.isBadRequest]
    · rcases hg : w.generateResult (lastMessageContent (requestBody.messages.getD [])) docs
        with e | chunks <;> simp [hsel, hs, hg, Outcome.isBadRequest]

lemma postChat_head_valid (w : World) (requestBody : AIChatCompletionRequest)
    (hb : w.body = some requestBody) (hv : invalidMessages requestBody.messages = false) :
    (postChat w).1.head? = (selectBackend w).1.head? := by
  obtain ⟨a, t, hat⟩ : ∃ a t, (selectBackend w).1 = a :: t := by
    rcases hsl : (selectBackend w).1 with _ | ⟨a, t⟩
    · exact absurd hsl (selectBackend_ne_nil w)
    · exact ⟨a, t, rfl⟩
  simp only [postChat, tryChat, hb, hv]
  rcases hsel : (selectBackend w).2 with e | u
  · simp [hsel, hat]
  · rcases hs : w.searchResult (lastMessageContent (requestBody.messages.getD [])) 3
      with e | docs
    · simp [hsel, hs, hat]
    · rcases hg : w.generateResult (lastMessageContent (requestBody.messages.getD [])) docs
        with e | chunks <;> simp [hsel, hs, hg, hat]

/-- Claim C4: once validation has succeeded, any error thrown by the rest
of the pipeline (backend construction, retrieval, generation) is caught at
the top level, its message is logged, and the response is the fixed
`ServiceUnavailable` message — the error's detail never reaches the
response body, which equals the static constant whatever the error is. -/
theorem errorsBecomeServiceUnavailable (w : World) (requestBody : AIChatCompletionRequest)
    (e : String) (_hb : w.body = some requestBody)
    (_hv : invalidMessages requestBody.messages = false)
    (he : (tryChat w).2 = .error e) :
    (postChat w).2 = .serviceUnavailable unavailableMsg ∧
    .logError ("Error when processing chat-post request: " ++ e) ∈ (postChat w).1 := by
  rcases htc : tryChat w with ⟨tr, r⟩
  rw [htc] at he
  simp only at he
  subst he
  simp [postChat, htc]

/-- Witness for `errorsBecomeServiceUnavailable` at a concrete input where
the vector store's search throws. -/
theorem errorsBecomeServiceUnavailable_witness :
    (postChat { baseWorld with searchResult := fun _ _ => .error "vector store down" }).2 =
        .serviceUnavailable unavailableMsg ∧
    .logError ("Error when processing chat-post request: " ++ "vector store down") ∈
      (postChat { baseWorld with searchResult := fun _ _ => .error "vector store down" }).1 :=
  errorsBecomeServiceUnavailable
    { baseWorld with searchResult := fun _ _ => .error "vector store down" }
    ⟨some [⟨some "user", some "hi"⟩]⟩ "vector store down" rfl (by decide) rfl

/-- Claim C9: two valid requests whose last message has the same content
produce exactly the same handler run (same trace — hence same retrieval
query and same pipeline input — and same outcome): messages before the
last one have no influence. -/
theorem historyIrrelevant (w : World) (ms1 ms2 : List ChatMessage)
    (h1 : invalidMessages (some ms1) = false) (h2 : invalidMessages (some ms2) = false)
    (hlast : lastMessageContent ms1 = lastMessageContent ms2) :
    postChat { w with body := some ⟨some ms1⟩ } = postChat { w with body := some ⟨some ms2⟩ } := by
  have key : tryChat { w with body := some ⟨some ms1⟩ } =
      tryChat { w with body := some ⟨some ms2⟩ } := by
    simp [tryChat, h1, h2, selectBackend, azureBranch, localBranch, hlast]
  rw [postChat, postChat, key]

/-- Witness for `historyIrrelevant`: two conversations with different
histories and roles but the same last content. -/
theorem historyIrrelevant_witness :
    postChat { baseWorld with
      body := some ⟨some [⟨some "user", some "early question"⟩, ⟨some "user", some "q"⟩]⟩ } =
    postChat { baseWorld with
      body := some ⟨some [⟨some "assistant", some "other"⟩, ⟨some "system", some "q"⟩]⟩ } :=
  historyIrrelevant baseWorld
    [⟨some "user", some "early question"⟩, ⟨some "user", some "q"⟩]
    [⟨some "assistant", some "other"⟩, ⟨some "system", some "q"⟩]
    (by decide) (by decide) (by decide)

/-- Claim C10: validation never inspects `role`: any request whose
messages list is non-empty and whose last message has non-empty content
passes validation (whatever the roles are, absent or arbitrary strings)
and the handler proceeds to backend selection — its first trace event is
the start of a backend branch, never a `BadRequest`. -/
theorem roleNeverInspected (w : World) (ms : List ChatMessage) (m : ChatMessage) (c : String)
    (hlast : ms.getLast? = some m) (hc : m.content = some c) (hcne : c ≠ "") :
    invalidMessages (some ms) = false ∧
    (postChat { w with body := some ⟨some ms⟩ }).2.isBadRequest = false ∧
    ((postChat { w with body := some ⟨some ms⟩ }).1.head? = some .getCredentialsEv ∨
      (postChat { w with body := some ⟨some ms⟩ }).1.head? = some (.logInfo fallbackLogMsg)) := by
  have hne : ms ≠ [] := by
    intro h; subst h; simp at hlast
  have hval : invalidMessages (some ms) = false := by
    simp [invalidMessages, hlast, hc, hcne, List.isEmpty_iff, hne]
  refine ⟨hval, postChat_not_badRequest _ ⟨some ms⟩ rfl hval, ?_⟩
  rw [postChat_head_valid _ ⟨some ms⟩ rfl hval]
  by_cases henv : envTruthy w.azureOpenAiEndpoint
  · left
    have : selectBackend { w with body := some ⟨some ms⟩ } =
        azureBranch { w with body := some ⟨some ms⟩ } := by
      simp [selectBackend, henv]
    rw [this, azureBranch_head]
  · right
    have : selectBackend { w with body := some ⟨some ms⟩ } =
        localBranch { w with body := some ⟨some ms⟩ } := by
      simp [selectBackend, henv]
    rw [this, localBranch_head]

/-- Witness for `roleNeverInspected`: a conversation whose roles are
absent or outside the role enum. -/
theorem roleNeverInspected_witness :
    invalidMessages (some [⟨none, some "ignored"⟩, ⟨some "wizard", some "hi"⟩]) = false ∧
    (postChat { baseWorld with
      body := some ⟨some [⟨none, some "ignored"⟩, ⟨some "wizard", some "hi"⟩]⟩ }).2.isBadRequest
        = false ∧
    ((postChat { baseWorld with
      body := some ⟨some [⟨none, some "ignored"⟩, ⟨some "wizard", some "hi"⟩]⟩ }).1.head? =
        some .getCredentialsEv ∨
      (postChat { baseWorld with
        body := some ⟨some [⟨none, some "ignored"⟩, ⟨some "wizard", some "hi"⟩]⟩ }).1.head? =
        some (.logInfo fallbackLogMsg)) :=
  roleNeverInspected baseWorld [⟨none, some "ignored"⟩, ⟨some "wizard", some "hi"⟩]
    ⟨some "wizard", some "hi"⟩ "hi" rfl rfl (by decide)

lemma not_mem_selectBackend_of_not_selection {w : World} {ev : Event}
    (h : ev.isSelectionEvent = false) : ev ∉ (selectBackend w).1 := by
  intro hmem
  have := selectBackend_selection w ev hmem
  rw [h] at this
  exact Bool.false_ne_true this

lemma countEv_selectBackend_eq_zero {w : World} {ev : Event}
    (h : ev.isSelectionEvent = false) : countEv (selectBackend w).1 ev = 0 := by
  unfold countEv
  rw [List.length_eq_zero, List.filter_eq_nil_iff]
  intro a ha
  simp only [decide_eq_true_eq]
  intro heq
  subst heq
  exact absurd (selectBackend_selection w a ha) (by rw [h]; exact Bool.false_ne_true)

lemma countEv_nil (e : Event) : countEv [] e = 0 := rfl

lemma countEv_cons (a : Event) (l : List Event) (e : Event) :
    countEv (a :: l) e = (if a = e then 1 else 0) + countEv l e := by
  simp only [countEv, List.filter_cons]
  split
  · next h => simp [if_pos (of_decide_eq_true h), Nat.add_comm]
  · next h => simp [if_neg fun hn => h (decide_eq_true hn)]

lemma countEv_append (l1 l2 : List Event) (e : Event) :
    countEv (l1 ++ l2) e = countEv l1 e + countEv l2 e := by
  simp [countEv, List.filter_append]

/-- Claim C8: when validation, backend selection, retrieval and generation
all succeed, the response is the streamed `data` outcome whose body is the
transcoded line stream and whose headers are exactly
`Content-Type: application/x-ndjson` and `Transfer-Encoding: chunked`. -/
theorem streamSuccessResponse (w : World) (requestBody : AIChatCompletionRequest)
    (docs : List RetrievedDocument) (chunks : List String)
    (hb : w.body = some requestBody) (hv : invalidMessages requestBody.messages = false)
    (hsel : (selectBackend w).2 = .ok ())
    (hs : w.searchResult (lastMessageContent (requestBody.messages.getD [])) 3 = .ok docs)
    (hg : w.generateResult (lastMessageContent (requestBody.messages.getD [])) docs =
      .ok chunks) :
    (postChat w).2 =
      .data (createJsonStream chunks)
        [("Content-Type", "application/x-ndjson"), ("Transfer-Encoding", "chunked")] := by
  simp [postChat, tryChat, hb, hv, hsel, hs, hg, ndjsonHeaders]

/-- Witness for `streamSuccessResponse` at a fully-successful concrete
environment. -/
theorem streamSuccessResponse_witness :
    (postChat baseWorld).2 =
      .data (createJsonStream ["Hel", "lo", ""])
        [("Content-Type", "application/x-ndjson"), ("Transfer-Encoding", "chunked")] :=
  streamSuccessResponse baseWorld ⟨some [⟨some "user", some "hi"⟩]⟩ [⟨"a.txt", "X"⟩]
    ["Hel", "lo", ""] rfl (by decide) rfl rfl rfl

/-- Claim C7: on a valid request whose backend selection succeeds, the
handler performs exactly one similarity search, its query is the last
message's content and it asks for exactly the top 3 matches (whatever the
conversation length), and the documents the store returns are handed
unchanged, in order, to the generation pipeline. -/
theorem retrievalTopThree (w : World) (requestBody : AIChatCompletionRequest)
    (ms : List ChatMessage) (docs : List RetrievedDocument)
    (hb : w.body = some requestBody) (hm : requestBody.messages = some ms)
    (hv : invalidMessages (some ms) = false)
    (hsel : (selectBackend w).2 = .ok ())
    (hs : w.searchResult (lastMessageContent ms) 3 = .ok docs) :
    countEv (postChat w).1 (.retrieverInvoke (lastMessageContent ms) 3) = 1 ∧
    (∀ q k, .retrieverInvoke q k ∈ (postChat w).1 → q = lastMessageContent ms ∧ k = 3) ∧
    .chainStream (lastMessageContent ms) docs ∈ (postChat w).1 := by
  have hnot : ∀ q k, (Event.retrieverInvoke q k) ∉ (selectBackend w).1 := fun q k =>
    not_mem_selectBackend_of_not_selection rfl
  have hzero : ∀ q k, countEv (selectBackend w).1 (.retrieverInvoke q k) = 0 := fun q k =>
    countEv_selectBackend_eq_zero rfl
  rcases hg : w.generateResult (lastMessageContent ms) docs with e | chunks
  · have htc : tryChat w =
        ((selectBackend w).1 ++
          [.retrieverInvoke (lastMessageContent ms) 3,
            .chainStream (lastMessageContent ms) docs], .error e) := by
      simp [tryChat, hb, hm, hv, hsel, hs, hg]
    refine ⟨?_, ?_, ?_⟩
    · simp [postChat, htc, countEv_append, countEv_cons, countEv_nil, hzero]
    · intro q k hmem
      simp only [postChat, htc, List.mem_append, List.mem_cons, List.not_mem_nil,
        or_false] at hmem
      rcases hmem with (h | h | h) | h
      · exact absurd h (hnot q k)
      · simp at h; exact ⟨h.1, h.2⟩
      · simp at h
      · simp at h
    · simp [postChat, htc]
  · have htc : tryChat w =
        ((selectBackend w).1 ++
          [.retrieverInvoke (lastMessageContent ms) 3,
            .chainStream (lastMessageContent ms) docs],
          .ok (.data (createJsonStream chunks) ndjsonHeaders)) := by
      simp [tryChat, hb, hm, hv, hsel, hs, hg]
    refine ⟨?_, ?_, ?_⟩
    · simp [postChat, htc, countEv_append, countEv_cons, countEv_nil, hzero]
    · intro q k hmem
      simp only [postChat, htc, List.mem_append, List.mem_cons, List.not_mem_nil,
        or_false] at hmem
      rcases hmem with h | h | h
      · exact absurd h (hnot q k)
      · simp at h; exact ⟨h.1, h.2⟩
      · simp at h
    · simp [postChat, htc]

/-- Witness for `retrievalTopThree` at a concrete one-message request. -/
theorem retrievalTopThree_witness :
    countEv (postChat baseWorld).1
        (.retrieverInvoke (lastMessageContent [⟨some "user", some "hi"⟩]) 3) = 1 ∧
    .chainStream (lastMessageContent [⟨some "user", some "hi"⟩]) [⟨"a.txt", "X"⟩] ∈
      (postChat baseWorld).1 :=
  ⟨(retrievalTopThree baseWorld ⟨some [⟨some "user", some "hi"⟩]⟩
      [⟨some "user", some "hi"⟩] [⟨"a.txt", "X"⟩] rfl rfl (by decide) rfl rfl).1,
    (retrievalTopThree baseWorld ⟨some [⟨some "user", some "hi"⟩]⟩
      [⟨some "user", some "hi"⟩] [⟨"a.txt", "X"⟩] rfl rfl (by decide) rfl rfl).2.2⟩

/-- The fully-successful environment without a cloud endpoint. -/
def localWorld : World := { baseWorld with azureOpenAiEndpoint := none }

/-- Claim C6: the chat temperature is 0.7 and, on a valid request, a
truthy cloud endpoint value makes the handler construct exactly the cloud
embedder, cloud chat model (temperature 0.7) and cloud vector store once
each and never a local variant, while an absent (or empty) endpoint value
makes it construct exactly the local embedder and local chat model (same
temperature), load the local on-disk index once, and log the fallback
diagnostic, never constructing a cloud variant. -/
theorem backendSelectionExclusive (w : World) (requestBody : AIChatCompletionRequest)
    (hb : w.body = some requestBody) (hv : invalidMessages requestBody.messages = false)
    (hcr : w.credentialsResult = .ok ()) (htp : w.tokenProviderResult = .ok ())
    (hae : w.azureEmbeddingsResult = .ok ()) (hac : w.azureChatResult = .ok ())
    (has : w.azureStoreResult = .ok ()) (hoe : w.ollamaEmbeddingsResult = .ok ())
    (hoc : w.ollamaChatResult = .ok ()) (hfl : w.faissLoadResult = .ok ()) :
    chatTemperature = 0.7 ∧
    (envTruthy w.azureOpenAiEndpoint = true →
      countEv (postChat w).1 .newAzureOpenAIEmbeddings = 1 ∧
      countEv (postChat w).1 (.newAzureChatOpenAI chatTemperature) = 1 ∧
      countEv (postChat w).1 .newAzureCosmosDBNoSQLVectorStore = 1 ∧
      (∀ m, .newOllamaEmbeddings m ∉ (postChat w).1) ∧
      (∀ t m, .newChatOllama t m ∉ (postChat w).1) ∧
      (∀ f, .faissStoreLoad f ∉ (postChat w).1)) ∧
    (envTruthy w.azureOpenAiEndpoint = false →
      countEv (postChat w).1 (.newOllamaEmbeddings ollamaEmbeddingsModel) = 1 ∧
      countEv (postChat w).1 (.newChatOllama chatTemperature ollamaChatModel) = 1 ∧
      countEv (postChat w).1 (.faissStoreLoad faissStoreFolder) = 1 ∧
      .logInfo fallbackLogMsg ∈ (postChat w).1 ∧
      .newAzureOpenAIEmbeddings ∉ (postChat w).1 ∧
      (∀ t, .newAzureChatOpenAI t ∉ (postChat w).1) ∧
      .newAzureCosmosDBNoSQLVectorStore ∉ (postChat w).1) := by
  refine ⟨rfl, ?_, ?_⟩
  · intro henv
    have hsb : selectBackend w =
        ([.getCredentialsEv, .getTokenProviderEv, .newAzureOpenAIEmbeddings,
          .newAzureChatOpenAI chatTemperature, .newAzureCosmosDBNoSQLVectorStore],
          .ok ()) := by
      simp [selectBackend, henv, azureBranch, step, hcr, htp, hae, hac, has]
    rcases hs : w.searchResult (lastMessageContent (requestBody.messages.getD [])) 3
      with e | docs
    · have htc : tryChat w =
          ([.getCredentialsEv, .getTokenProviderEv, .newAzureOpenAIEmbeddings,
            .newAzureChatOpenAI chatTemperature, .newAzureCosmosDBNoSQLVectorStore] ++
            [.retrieverInvoke (lastMessageContent (requestBody.messages.getD [])) 3],
            .error e) := by
        simp [tryChat, hb, hv, hsb, hs]
      simp [postChat, htc, countEv_append, countEv_cons, countEv_nil]
    · rcases hg : w.generateResult (lastMessageContent (requestBody.messages.getD [])) docs
        with e | chunks
      · have htc : tryChat w =
            ([.getCredentialsEv, .getTokenProviderEv, .newAzureOpenAIEmbeddings,
              .newAzureChatOpenAI chatTemperature, .newAzureCosmosDBNoSQLVectorStore] ++
              [.retrieverInvoke (lastMessageContent (requestBody.messages.getD [])) 3,
                .chainStream (lastMessageContent (requestBody.messages.getD [])) docs],
              .error e) := by
          simp [tryChat, hb, hv, hsb, hs, hg]
        simp [postChat, htc, countEv_append, countEv_cons, countEv_nil]
      · have htc : tryChat w =
            ([.getCredentialsEv, .getTokenProviderEv, .newAzureOpenAIEmbeddings,
              .newAzureChatOpenAI chatTemperature, .newAzureCosmosDBNoSQLVectorStore] ++
              [.retrieverInvoke (lastMessageContent (requestBody.messages.getD [])) 3,
                .chainStream (lastMessageContent (requestBody.messages.getD [])) docs],
              .ok (.data (createJsonStream chunks) ndjsonHeaders)) := by
          simp [tryChat, hb, hv, hsb, hs, hg]
        simp [postChat, htc, countEv_append, countEv_cons, countEv_nil]
  · intro henv
    have hsb : selectBackend w =
        ([.logInfo fallbackLogMsg, .newOllamaEmbeddings ollamaEmbeddingsModel,
          .newChatOllama chatTemperature ollamaChatModel, .faissStoreLoad faissStoreFolder],
          .ok ()) := by
      simp [selectBackend, henv, localBranch, step, hoe, hoc, hfl]
    rcases hs : w.searchResult (lastMessageContent (requestBody.messages.getD [])) 3
      with e | docs
    · have htc : tryChat w =
          ([.logInfo fallbackLogMsg, .newOllamaEmbeddings ollamaEmbeddingsModel,
            .newChatOllama chatTemperature ollamaChatModel,
            .faissStoreLoad faissStoreFolder] ++
            [.retrieverInvoke (lastMessageContent (requestBody.messages.getD [])) 3],
            .error e) := by
        simp [tryChat, hb, hv, hsb, hs]
      simp [postChat, htc, countEv_append, countEv_cons, countEv_nil]
    · rcases hg : w.generateResult (lastMessageContent (requestBody.messages.getD [])) docs
        with e | chunks
      · have htc : tryChat w =
            ([.logInfo fallbackLogMsg, .newOllamaEmbeddings ollamaEmbeddingsModel,
              .newChatOllama chatTemperature ollamaChatModel,
              .faissStoreLoad faissStoreFolder] ++
              [.retrieverInvoke (lastMessageContent (requestBody.messages.getD [])) 3,
                .chainStream (lastMessageContent (requestBody.messages.getD [])) docs],
              .error e) := by
          simp [tryChat, hb, hv, hsb, hs, hg]
        simp [postChat, htc, countEv_append, countEv_cons, countEv_nil]
      · have htc : tryChat w =
            ([.logInfo fallbackLogMsg, .newOllamaEmbeddings ollamaEmbeddingsModel,
              .newChatOllama chatTemperature ollamaChatModel,
              .faissStoreLoad faissStoreFolder] ++
              [.retrieverInvoke (lastMessageContent (requestBody.messages.getD [])) 3,
                .chainStream (lastMessageContent (requestBody.messages.getD [])) docs],
              .ok (.data (createJsonStream chunks) ndjsonHeaders)) := by
          simp [tryChat, hb, hv, hsb, hs, hg]
        simp [postChat, htc, countEv_append, countEv_cons, countEv_nil]

/-- Witness for `backendSelectionExclusive` applied at a cloud-configured
and at a local-configured concrete environment. -/
theorem backendSelectionExclusive_witness :
    (countEv (postChat baseWorld).1 .newAzureOpenAIEmbeddings = 1 ∧
      countEv (postChat baseWorld).1 (.newAzureChatOpenAI chatTemperature) = 1 ∧
      countEv (postChat baseWorld).1 .newAzureCosmosDBNoSQLVectorStore = 1 ∧
      .newOllamaEmbeddings ollamaEmbeddingsModel ∉ (postChat baseWorld).1 ∧
      .faissStoreLoad faissStoreFolder ∉ (postChat baseWorld).1) ∧
    (countEv (postChat localWorld).1 (.newOllamaEmbeddings ollamaEmbeddingsModel) = 1 ∧
      countEv (postChat localWorld).1 (.newChatOllama chatTemperature ollamaChatModel) = 1 ∧
      countEv (postChat localWorld).1 (.faissStoreLoad faissStoreFolder) = 1 ∧
      .logInfo fallbackLogMsg ∈ (postChat localWorld).1 ∧
      .newAzureOpenAIEmbeddings ∉ (postChat localWorld).1) := by
  have hc := (backendSelectionExclusive baseWorld ⟨some [⟨some "user", some "hi"⟩]⟩
    rfl (by decide) rfl rfl rfl rfl rfl rfl rfl rfl).2.1 (by decide)
  have hl := (backendSelectionExclusive localWorld ⟨some [⟨some "user", some "hi"⟩]⟩
    rfl (by decide) rfl rfl rfl rfl rfl rfl rfl rfl).2.2 (by decide)
  exact ⟨⟨hc.1, hc.2.1, hc.2.2.1, hc.2.2.2.1 ollamaEmbeddingsModel,
      hc.2.2.2.2.2 faissStoreFolder⟩,
    ⟨hl.1, hl.2.1, hl.2.2.1, hl.2.2.2.1, hl.2.2.2.2.1⟩⟩

end ChatPost
